import Mathlib

/-!
Shallow embedding of the canvas state synchronization engine of the
extauri repository: the IndexedDB-backed local cache service
(src/storage/indexedDBService.ts) and the canvas component's
synchronization logic (src/ExcalidrawCanvas.tsx): element normalization,
collaborator-map reconstruction, echo suppression, debounced saving,
startup restore and the browser poll loop.

JavaScript conventions used throughout the embedding:
- possibly-absent values are `Option` (`none` stands for undefined/null);
- `x || d` on numbers treats 0 as falsy (`jsOrNum`), on strings treats ""
  as falsy (`jsOrStr`), and `x || null` collapses falsy values to `none`
  (`jsOrNull`); `Boolean(x)` on an optional boolean is `Option.getD false`;
- JavaScript numbers are modelled as `Rat` inside documents and `Nat` for
  `Date.now()` timestamps and the `updated_at` token (0 standing for a
  missing / falsy token);
- `Date.now()` and `Math.floor(Math.random()*1000000)` draws are passed as
  explicit parameters (`now`, `rndSeed`, `rndNonce`);
- the `JSON.stringify` change hash is modelled by structural equality
  after erasing the collaborator map's contents (a JS `Map` serializes as
  an empty object, so two states differing only there hash equal);
- the single-threaded event handlers are embedded as pure functions from
  their inputs and the mutable refs they read to the refs they write,
  and the side effects of one handler run are recorded as a list of
  actions (`Act`).
-/

namespace Extauri

/-- `x || d` for a JS number: `none` (undefined, also `Number(undefined) = NaN`)
and 0 are falsy and give the default. -/
def jsOrNum (v : Option Rat) (d : Rat) : Rat :=
  match v with
  | none => d
  | some n => if n = 0 then d else n

/-- `x || d` for a JS string: `none` and the empty string are falsy. -/
def jsOrStr (v : Option String) (d : String) : String :=
  match v with
  | none => d
  | some s => if s = "" then d else s

/-- `x || null` for an optional pass-through value: falsy collapses to null.
The source stores these fields untyped; a `String` payload stands in for
the arbitrary pass-through value. -/
def jsOrNull (v : Option String) : Option String :=
  match v with
  | none => none
  | some s => if s = "" then none else some s

/-- The run-time shape of `appState.collaborators` as it can arrive over the
wire: a real `Map` (with its entries), a serialized array, a plain object,
or absent. -/
inductive CollabVal where
  | map (entries : List (String × String))
  | arrVal
  | objVal
  | absent
deriving DecidableEq

/-- `instanceof Map`. -/
def CollabVal.isMap : CollabVal → Bool
  | .map _ => true
  | _ => false

/-- The slice of Excalidraw's AppState the sync logic reads or rewrites.
Fields other than `collaborators` pass through unchanged (the source
spreads `...appState`). -/
structure AppState where
  collaborators : CollabVal := .absent
  theme : Option String := none
  viewBackgroundColor : Option String := none
deriving DecidableEq

/-- `ensureCollaboratorsMap` (ExcalidrawCanvas.tsx lines 26-39): if the
appState is falsy, return a fresh `{ collaborators: new Map() }`; if
`collaborators` is already a `Map`, return the appState unchanged;
otherwise spread the appState and replace `collaborators` with an empty
`Map`. -/
def ensureCollaboratorsMap (appState : Option AppState) : AppState :=
  match appState with
  | none => { collaborators := .map [] }
  | some a =>
    match a.collaborators with
    | .map _ => a
    | _ => { a with collaborators := .map [] }

/-- Binary-asset mapping (`files`), as an association list id to data. -/
abbrev Files := List (String × String)

/-- An element record as the sync code sees it: loosely shaped, every field
the normalization loop reads is optional. Fields the loop never touches
(`x`, `y`, `width`, `height`, `type`, ...) are carried through by the
`...cleanElement` spread and modelled as plain fields. -/
structure RawElement where
  id : Option String := none
  type : String := ""
  x : Rat := 0
  y : Rat := 0
  width : Rat := 0
  height : Rat := 0
  seed : Option Rat := none
  versionNonce : Option Rat := none
  groupIds : Option (List String) := none
  boundElements : Option String := none
  updated : Option Rat := none
  link : Option String := none
  locked : Option Bool := none
  frameId : Option String := none
  strokeColor : Option String := none
  backgroundColor : Option String := none
  isDeleted : Option Bool := none
  opacity : Option Rat := none
  roughness : Option Rat := none
  strokeWidth : Option Rat := none
  angle : Option Rat := none
  version : Option Rat := none
  text : Option String := none
  fontSize : Option Rat := none
  fontFamily : Option Rat := none
  textAlign : Option String := none
  verticalAlign : Option String := none
  containerId : Option String := none
  originalText : Option String := none
  lineHeight : Option Rat := none
  points : Option (List (Rat × Rat)) := none
  lastCommittedPoint : Option String := none
  startBinding : Option String := none
  endBinding : Option String := none
  startArrowhead : Option String := none
  endArrowhead : Option String := none
  pressures : Option (List Rat) := none
  simulatePressure : Option Bool := none
deriving DecidableEq

/-- The per-element normalization body of `handleCanvasUpdate`
(ExcalidrawCanvas.tsx lines 152-211): base defaults, then the
type-specific blocks for text, arrow/line and freedraw elements.
`now` is the `Date.now()` draw, `rndSeed`/`rndNonce` the two
`Math.floor(Math.random()*1000000)` draws, `idx` the forEach index. -/
def processElement (now : Nat) (rndSeed rndNonce : Rat) (idx : Nat)
    (e : RawElement) : RawElement :=
  let base : RawElement := { e with
    id := some (jsOrStr e.id ("element_" ++ toString now ++ "_" ++ toString idx)),
    seed := some (jsOrNum e.seed rndSeed),
    versionNonce := some (jsOrNum e.versionNonce rndNonce),
    groupIds := some (e.groupIds.getD []),
    boundElements := jsOrNull e.boundElements,
    updated := some (jsOrNum e.updated (now : Rat)),
    link := jsOrNull e.link,
    locked := some (e.locked.getD false),
    frameId := jsOrNull e.frameId,
    strokeColor := some (jsOrStr e.strokeColor "#000000"),
    backgroundColor := some (jsOrStr e.backgroundColor "transparent"),
    isDeleted := some (e.isDeleted.getD false),
    opacity := some (jsOrNum e.opacity 100),
    roughness := some (jsOrNum e.roughness 1),
    strokeWidth := some (jsOrNum e.strokeWidth 1),
    angle := some (jsOrNum e.angle 0),
    version := some (jsOrNum e.version 1) }
  let base : RawElement :=
    if e.type == "text" then { base with
      text := some (jsOrStr e.text ""),
      fontSize := some (jsOrNum e.fontSize 20),
      fontFamily := some (jsOrNum e.fontFamily 1),
      textAlign := some (jsOrStr e.textAlign "left"),
      verticalAlign := some (jsOrStr e.verticalAlign "top"),
      containerId := jsOrNull e.containerId,
      originalText := some (jsOrStr e.originalText (jsOrStr e.text "")),
      lineHeight := some (jsOrNum e.lineHeight (1.25 : Rat)) }
    else base
  let base : RawElement :=
    if e.type == "arrow" || e.type == "line" then { base with
      points := some (e.points.getD [((0 : Rat), (0 : Rat)), ((100 : Rat), (100 : Rat))]),
      lastCommittedPoint := jsOrNull e.lastCommittedPoint,
      startBinding := jsOrNull e.startBinding,
      endBinding := jsOrNull e.endBinding,
      startArrowhead := jsOrNull e.startArrowhead,
      endArrowhead := some (jsOrStr e.endArrowhead "arrow") }
    else base
  let base : RawElement :=
    if e.type == "freedraw" then { base with
      points := some (e.points.getD []),
      pressures := some (e.pressures.getD []),
      simulatePressure := some (e.simulatePressure.getD false),
      lastCommittedPoint := jsOrNull e.lastCommittedPoint }
    else base
  base

/-- The singleton record of the durable local store, as the typed service
interface reads it back: `{ elements, appState, timestamp }`, the
timestamp stamped by `saveCanvasData`. -/
structure CanvasData where
  elements : List RawElement
  appState : AppState
  timestamp : Nat
deriving DecidableEq

/-- The local store state: the singleton record under key `current`, or
absent. -/
abbrev Store := Option CanvasData

/-- `saveCanvasData` (indexedDBService.ts lines 84-112): fully overwrites
the singleton record, stamping `timestamp: Date.now()`. -/
def saveCanvasData (elements : List RawElement) (appState : AppState)
    (now : Nat) : CanvasData :=
  { elements := elements, appState := appState, timestamp := now }

/-- `getLastUpdateTime` (indexedDBService.ts lines 168-171): load the
record, return its timestamp or null. -/
def getLastUpdateTime (store : Store) : Option Nat :=
  Option.map (fun d => d.timestamp) store

/-- `shouldUpdateData` (indexedDBService.ts lines 174-187): the guard is
the JS test `if (!lastUpdate) return true`, so both a missing record and a
stored timestamp of 0 (falsy) answer true; otherwise strict comparison
`newTimestamp > lastUpdate`. -/
def shouldUpdateData (store : Store) (newTimestamp : Nat) : Bool :=
  match getLastUpdateTime store with
  | none => true
  | some lastUpdate =>
    if lastUpdate = 0 then true else decide (newTimestamp > lastUpdate)

/-- A JavaScript run-time value, for the raw (possibly corrupted) shape of
a stored record that `repairData` validates. -/
inductive JVal where
  | jnull
  | undef
  | jbool (b : Bool)
  | num (n : Rat)
  | str (s : String)
  | arr (xs : List JVal)
  | obj (fields : List (String × JVal))

/-- JS `typeof` (note `typeof null` and `typeof []` are both `"object"`). -/
def JVal.jtypeof : JVal → String
  | .jnull => "object"
  | .undef => "undefined"
  | .jbool _ => "boolean"
  | .num _ => "number"
  | .str _ => "string"
  | .arr _ => "object"
  | .obj _ => "object"

/-- JS truthiness. -/
def JVal.truthy : JVal → Bool
  | .jnull => false
  | .undef => false
  | .jbool b => b
  | .num n => decide (n ≠ 0)
  | .str s => decide (s ≠ "")
  | .arr _ => true
  | .obj _ => true

/-- `Array.isArray`. -/
def JVal.isArray : JVal → Bool
  | .arr _ => true
  | _ => false

/-- A plain-object mapping, the spec's notion of a "mapping" value. -/
def JVal.isMapping : JVal → Bool
  | .obj _ => true
  | _ => false

/-- The raw stored record before shape validation: each field can hold any
run-time value. -/
structure RawRecord where
  elements : JVal
  appState : JVal
  timestamp : JVal

/-- `saveCanvasData` on the raw shape: the stored record is rebuilt from
the two arguments with `timestamp: Date.now()`; the caller's timestamp, if
any, is never stored. -/
def saveCanvasDataRaw (elements appState : JVal) (now : Nat) : RawRecord :=
  { elements := elements, appState := appState, timestamp := .num (now : Rat) }

/-- The effect `repairData` has on the store: untouched, rewritten to a
record, or cleared. -/
inductive StoreEffect where
  | untouched
  | saved (r : RawRecord)
  | cleared

/-- `repairData` (indexedDBService.ts lines 208-251), with the result of
`loadCanvasData` passed in (`Except.error` = the load rejected). On load
failure the catch block clears the store. With no record it returns true
doing nothing. Otherwise: a non-array `elements` becomes `[]`; an
`appState` failing the JS test `!appState || typeof appState !== 'object'`
becomes `{}`; the in-code timestamp fix (`!timestamp || typeof timestamp
!== 'number'` becomes `Date.now()`) is computed but then discarded,
because the re-save through `saveCanvasData` stamps a fresh `Date.now()`
over whatever timestamp the record held. Save and clear are assumed to
succeed (the only false return is when clearing also fails). -/
def repairData (loaded : Except Unit (Option RawRecord)) (now : Nat) :
    Bool × StoreEffect :=
  match loaded with
  | .error _ => (true, .cleared)
  | .ok none => (true, .untouched)
  | .ok (some data) =>
    let els := if data.elements.isArray then data.elements else .arr []
    let app :=
      if data.appState.truthy && (data.appState.jtypeof == "object")
      then data.appState else .obj []
    (true, .saved (saveCanvasDataRaw els app now))

/-- The argument of an `updateScene` call. -/
structure ScenePayload where
  elements : List RawElement
  appState : AppState
  files : Files
deriving DecidableEq

/-- One observable side effect of a handler run, in execution order:
setting the echo-suppression flag (`isUpdatingFromRestore.current =
true`), scheduling its reset after `ms` milliseconds, a programmatic
`updateScene` apply, a `saveCanvasData` write, or a `clearCanvasData`. -/
inductive Act where
  | setFlag
  | clearFlagAfter (ms : Nat)
  | applyScene (doc : ScenePayload)
  | saveLocal (elements : List RawElement) (appState : AppState)
  | clearLocal
deriving DecidableEq

/-- Whether an action is a programmatic apply to the live surface. -/
def Act.isApply : Act → Bool
  | .applyScene _ => true
  | _ => false

/-- Annotate each action of a synchronous handler run with the value the
suppression flag holds at the moment the action executes. `setFlag` raises
it; `clearFlagAfter` only schedules the reset (the 100 ms timer fires
after the synchronous run), so it does not lower it within the trace. -/
def flagsIn (flag : Bool) : List Act → List (Bool × Act)
  | [] => []
  | .setFlag :: rest => (flag, .setFlag) :: flagsIn true rest
  | a :: rest => (flag, a) :: flagsIn flag rest

/-- Every programmatic apply in the trace is followed by a scheduled
100 ms flag reset. -/
def eventuallyCleared : List Act → Bool
  | [] => true
  | .applyScene _ :: rest =>
    rest.any (fun a => match a with | .clearFlagAfter 100 => true | _ => false)
      && eventuallyCleared rest
  | _ :: rest => eventuallyCleared rest

/-- Replay the store writes of a trace over the local store (every
`saveLocal` stamps the current time, per `saveCanvasData`). -/
def storeAfter (now : Nat) : Store → List Act → Store
  | store, [] => store
  | _, .saveLocal els app :: rest => storeAfter now (some (saveCanvasData els app now)) rest
  | _, .clearLocal :: rest => storeAfter now none rest
  | store, _ :: rest => storeAfter now store rest

/-- The payload handed to `handleCanvasUpdate`: each field may be absent
or malformed. `elements = none` stands for a value failing
`Array.isArray`. -/
structure DrawPayload where
  elements : Option (List RawElement) := none
  appState : Option AppState := none
  files : Option Files := none
deriving DecidableEq

/-- `handleCanvasUpdate` (ExcalidrawCanvas.tsx lines 135-307), success
path (no thrown exception, `apiRef.current` present). With a nonempty
element array: normalize every element, set the suppression flag, apply
`{processedElements, ensureCollaboratorsMap(payload.appState),
payload.files || {}}`, schedule the 100 ms flag reset, then persist
`(processedElements, payload.appState || {})`. With an empty or non-array
`elements`: set the flag, apply the empty scene, schedule the reset, then
clear the local store. -/
def handleCanvasUpdate (now : Nat) (rndSeed rndNonce : Rat)
    (p : DrawPayload) : List Act :=
  let elements := p.elements.getD []
  if elements.length > 0 then
    let processedElements :=
      elements.enum.map (fun pr => processElement now rndSeed rndNonce pr.1 pr.2)
    let safeAppState := ensureCollaboratorsMap p.appState
    [Act.setFlag,
     Act.applyScene { elements := processedElements, appState := safeAppState,
                      files := p.files.getD [] },
     Act.clearFlagAfter 100,
     Act.saveLocal processedElements (p.appState.getD {})]
  else
    [Act.setFlag,
     Act.applyScene { elements := [], appState := ensureCollaboratorsMap p.appState,
                      files := p.files.getD [] },
     Act.clearFlagAfter 100,
     Act.clearLocal]

/-- The body the backend reports for `GET /canvas` as this component reads
it: the startup path reads `data.canvas.elements` / `data.canvas.appState`,
the poll path reads `canvas.elements` / `canvas.app_state` / `canvas.files`
/ `canvas.updated_at`, so both spellings of the app-state key are carried.
`updated_at = 0` stands for a missing / falsy token. -/
structure RemoteCanvas where
  elements : Option (List RawElement) := none
  app_state : Option AppState := none
  appState : Option AppState := none
  files : Option Files := none
  updated_at : Nat := 0
deriving DecidableEq

/-- `initializeStorage` (ExcalidrawCanvas.tsx lines 52-117), with the
remote response and the repaired local record passed in (`remote = none`
covers a network failure and a non-ok response; a present `canvas` with a
missing `elements` field fails the `data.canvas && data.canvas.elements`
test). On backend data: persist `(elements, canvas.appState || {})` first,
then apply with only `ensureCollaboratorsMap` on the app state — no
element normalization and, notably, no suppression-flag set around this
apply. Otherwise fall back to the local record (`savedData &&
savedData.elements`, an array being always truthy) and apply it with
`files: {}`; with neither, do nothing. -/
def initializeStorage (remote : Option RemoteCanvas)
    (localData : Option CanvasData) : List Act :=
  let backendData : Option RemoteCanvas :=
    match remote with
    | some c => if c.elements.isSome then some c else none
    | none => none
  match backendData with
  | some c =>
    let els := c.elements.getD []
    [Act.saveLocal els (c.appState.getD {}),
     Act.applyScene { elements := els, appState := ensureCollaboratorsMap c.appState,
                      files := c.files.getD [] }]
  | none =>
    match localData with
    | some d =>
      [Act.applyScene { elements := d.elements,
                        appState := ensureCollaboratorsMap (some d.appState),
                        files := [] }]
    | none => []

/-- The poll loop's channel state: `lastUpdateTime`, initially the falsy
empty value (0 in this embedding). -/
structure PollState where
  lastUpdateTime : Nat := 0
deriving DecidableEq

/-- One tick of the poll interval (ExcalidrawCanvas.tsx lines 316-343).
`resp = none` covers a fetch rejection (caught and logged) and a non-ok
response, and also a body without `canvas`. The guard is `canvas &&
canvas.updated_at && canvas.updated_at !== lastUpdateTime`: the token must
be truthy and merely different from the last seen value. On forward, the
channel records the token and hands `{elements, appState: canvas.app_state,
files}` to `handleCanvasUpdate`. -/
def pollTick (st : PollState) (resp : Option RemoteCanvas) :
    PollState × Option DrawPayload :=
  match resp with
  | none => (st, none)
  | some canvas =>
    if (canvas.updated_at != 0) && (canvas.updated_at != st.lastUpdateTime) then
      ({ lastUpdateTime := canvas.updated_at },
       some { elements := canvas.elements, appState := canvas.app_state,
              files := canvas.files })
    else (st, none)

/-- One full poll tick composed with the canvas update it triggers:
returns the new channel state, the store after replaying the handler's
writes, and the handler trace (empty when nothing was forwarded). -/
def pollStep (now : Nat) (rndSeed rndNonce : Rat) (st : PollState)
    (store : Store) (resp : Option RemoteCanvas) :
    PollState × Store × List Act :=
  match pollTick st resp with
  | (st', none) => (st', store, [])
  | (st', some p) =>
    let tr := handleCanvasUpdate now rndSeed rndNonce p
    (st', storeAfter now store tr, tr)

/-- The content whose canonical serialization the debouncer hashes:
`{elements, appState: safeAppState, files}`. -/
structure Snap where
  elements : List RawElement
  appState : AppState
  files : Files
deriving DecidableEq

/-- `JSON.stringify` erases a `Map`'s contents (a `Map` serializes as
`{}`), so serialization equality is structural equality after dropping the
collaborator map's entries. -/
def serializeAppState (a : AppState) : AppState :=
  { a with collaborators :=
      match a.collaborators with
      | .map _ => .map []
      | v => v }

/-- The canonical serialization the `dataHash` comparison sees. -/
def serializeSnap (s : Snap) : Snap :=
  { s with appState := serializeAppState s.appState }

/-- The debouncer's mutable refs: `lastSaveDataRef` (the hash of the last
scheduled content, `none` for the initial empty string, which no real
serialization equals) and the pending debounced save with its captured
content (`saveTimeoutRef` plus the closure's `mutableElements` and
`safeAppState`). -/
structure DebounceState where
  lastSaveData : Option Snap := none
  pending : Option (List RawElement × AppState) := none
deriving DecidableEq

/-- The `onChange` handler (ExcalidrawCanvas.tsx lines 459-521). With the
suppression flag set, or `elements` falsy, return unchanged. Otherwise
hash `{elements, safeAppState, files || {}}`; if it equals the last hash,
skip; else record the hash, cancel any pending timer and schedule a save
of `(mutableElements, safeAppState)` after 300 ms. -/
def onChange (flag : Bool) (st : DebounceState)
    (elements : Option (List RawElement)) (appState : Option AppState)
    (files : Option Files) : DebounceState :=
  if flag then st
  else
    match elements with
    | none => st
    | some els =>
      let safeAppState := ensureCollaboratorsMap appState
      let snap := serializeSnap { elements := els, appState := safeAppState,
                                  files := files.getD [] }
      if st.lastSaveData = some snap then st
      else { lastSaveData := some snap, pending := some (els, safeAppState) }

/-- The 300 ms debounce timer firing: performs the pending
`saveCanvasData` write, if any. -/
def fireSave (now : Nat) (store : Store) (st : DebounceState) :
    Store × DebounceState :=
  match st.pending with
  | none => (store, st)
  | some pr => (some (saveCanvasData pr.1 pr.2 now), { st with pending := none })

/-- One unsuppressed live-surface change notification. -/
structure Notif where
  elements : List RawElement
  appState : Option AppState := none
  files : Option Files := none
deriving DecidableEq

/-- The serialization `onChange` computes for a notification. -/
def notifSnap (n : Notif) : Snap :=
  serializeSnap { elements := n.elements,
                  appState := ensureCollaboratorsMap n.appState,
                  files := n.files.getD [] }

/-- Deliver a burst of notifications, none suppressed, with no timer
firing in between (all inside one debounce window). -/
def runBurst (st : DebounceState) : List Notif → DebounceState
  | [] => st
  | n :: rest => runBurst (onChange false st (some n.elements) n.appState n.files) rest

/-- Each notification's serialization differs from its predecessor's (the
first differing from the given last-scheduled hash): a burst of
content-changing edits. -/
def chainDistinct : Option Snap → List Notif → Bool
  | _, [] => true
  | prev, n :: rest =>
    (prev != some (notifSnap n)) && chainDistinct (some (notifSnap n)) rest

/-! ## C6 — timestamp conflict guard -/

/-- C6 is false as stated: with a stored record whose timestamp is 0, the
record exists and the new timestamp 0 is not strictly greater, yet
`shouldUpdateData` answers true, because the source's guard is the JS
falsy test `!lastUpdate`, which a stored timestamp of 0 also satisfies. -/
theorem shouldUpdateData_zero_timestamp_cex :
    shouldUpdateData (some { elements := [], appState := {}, timestamp := 0 }) 0 = true ∧
    (some { elements := [], appState := {}, timestamp := 0 } : Store) ≠ none ∧
    ¬ ((0 : Nat) > 0) := by decide

/-- C6 (amended): `shouldUpdateData(newTimestamp)` returns true iff no
local record exists, or the stored timestamp is 0 (a falsy value the
guard treats like a missing record), or `newTimestamp` is strictly
greater than the stored timestamp; for equal timestamps with a nonzero
stored value it returns false (ties favor the existing state). -/
theorem shouldUpdateData_characterization :
    (∀ (store : Store) (ts : Nat),
      shouldUpdateData store ts = true ↔
        (store = none ∨ ∃ d, store = some d ∧ (d.timestamp = 0 ∨ d.timestamp < ts))) ∧
    (∀ d : CanvasData, d.timestamp ≠ 0 → shouldUpdateData (some d) d.timestamp = false) := by
  constructor
  · intro store ts
    cases store with
    | none => simp [shouldUpdateData, getLastUpdateTime]
    | some d =>
      by_cases h : d.timestamp = 0 <;>
        simp [shouldUpdateData, getLastUpdateTime, h]
  · intro d h
    simp [shouldUpdateData, getLastUpdateTime, h]

/-- Witness for C6: a record stored at timestamp 5 is not overwritten by
an observation also timestamped 5. -/
theorem shouldUpdateData_characterization_w :
    shouldUpdateData (some { elements := [], appState := {}, timestamp := 5 }) 5 = false :=
  shouldUpdateData_characterization.2
    { elements := [], appState := {}, timestamp := 5 } (by decide)

/-! ## C5 — poll-mode forwarding -/

/-- C5 is false as stated: with last seen token 100, a tick reporting
token 50 is forwarded (the source tests `updated_at !== lastUpdateTime`,
mere difference), although 50 is not strictly newer than 100. -/
theorem pollTick_forwards_older_token_cex :
    (pollTick { lastUpdateTime := 100 } (some { updated_at := 50 })).2.isSome = true ∧
    ¬ ((50 : Nat) > 100) := by decide

/-- C5 (amended): on each 1-second tick the channel forwards a
remote-poll observation iff the service-reported `updated_at` token is
present (truthy) and different — not necessarily strictly newer — from
the last value this channel has seen; the forwarded payload carries the
reported elements, `app_state` and files, and the channel records the
token; on network failure nothing is forwarded, no error surfaces and the
channel state is unchanged. -/
theorem pollTick_forwarding_amended :
    (∀ st : PollState, pollTick st none = (st, none)) ∧
    (∀ (st : PollState) (c : RemoteCanvas),
      (pollTick st (some c)).2.isSome = true ↔
        (c.updated_at ≠ 0 ∧ c.updated_at ≠ st.lastUpdateTime)) ∧
    (∀ (st : PollState) (c : RemoteCanvas),
      c.updated_at ≠ 0 → c.updated_at ≠ st.lastUpdateTime →
        pollTick st (some c) =
          ({ lastUpdateTime := c.updated_at },
           some { elements := c.elements, appState := c.app_state,
                  files := c.files })) := by
  refine ⟨fun st => rfl, ?_, ?_⟩
  · intro st c
    by_cases h1 : c.updated_at = 0 <;> by_cases h2 : c.updated_at = st.lastUpdateTime <;>
      simp [pollTick, h1, h2]
  · intro st c h1 h2
    simp [pollTick, h1, h2]

/-- Witness for C5: with last seen token 3, a report carrying token 7 is
forwarded and the channel records 7. -/
theorem pollTick_forwarding_amended_w :
    pollTick { lastUpdateTime := 3 } (some { updated_at := 7 }) =
      ({ lastUpdateTime := 7 },
       some { elements := none, appState := none, files := none }) :=
  pollTick_forwarding_amended.2.2 { lastUpdateTime := 3 } { updated_at := 7 }
    (by decide) (by decide)

/-! ## C10 — falsy-as-missing coercion of opacity and version -/

/-- The element normalization always writes `Number(opacity) || 100`. -/
theorem processElement_opacity (now : Nat) (rndSeed rndNonce : Rat) (idx : Nat)
    (e : RawElement) :
    (processElement now rndSeed rndNonce idx e).opacity = some (jsOrNum e.opacity 100) := by
  simp only [processElement]
  split <;> split <;> split <;> rfl

/-- The element normalization always writes `Number(version) || 1`. -/
theorem processElement_version (now : Nat) (rndSeed rndNonce : Rat) (idx : Nat)
    (e : RawElement) :
    (processElement now rndSeed rndNonce idx e).version = some (jsOrNum e.version 1) := by
  simp only [processElement]
  split <;> split <;> split <;> rfl

/-- C10 (confirmed): an incoming element with opacity present and equal
to 0 leaves normalization with the default opacity 100 (`Number(x) || d`
treats the present falsy 0 as missing), no element ever leaves
normalization with opacity 0, and the same coercion turns version 0 into
the default 1. -/
theorem opacity_zero_default_confirmed :
    ∀ (now : Nat) (rndSeed rndNonce : Rat) (idx : Nat) (e : RawElement),
      (e.opacity = some 0 → (processElement now rndSeed rndNonce idx e).opacity = some 100) ∧
      ((processElement now rndSeed rndNonce idx e).opacity ≠ some 0) ∧
      (e.version = some 0 → (processElement now rndSeed rndNonce idx e).version = some 1) := by
  intro now rndSeed rndNonce idx e
  refine ⟨fun h => ?_, ?_, fun h => ?_⟩
  · rw [processElement_opacity, h]; rfl
  · rw [processElement_opacity]
    cases ho : e.opacity with
    | none => simp [jsOrNum]
    | some n =>
      by_cases hn : n = 0 <;> simp [jsOrNum, hn]
  · rw [processElement_version, h]; rfl

/-- Witness for C10: a concrete fully transparent rectangle at version 0
is normalized to opacity 100 and version 1. -/
theorem opacity_zero_default_confirmed_w :
    (processElement 7 3 4 0 { type := "rectangle", opacity := some 0, version := some 0 }).opacity
        = some 100 ∧
    (processElement 7 3 4 0 { type := "rectangle", opacity := some 0, version := some 0 }).version
        = some 1 :=
  ⟨(opacity_zero_default_confirmed 7 3 4 0
      { type := "rectangle", opacity := some 0, version := some 0 }).1 (by decide),
   (opacity_zero_default_confirmed 7 3 4 0
      { type := "rectangle", opacity := some 0, version := some 0 }).2.2 (by decide)⟩

/-! ## C8 — repair of corrupted records -/

/-- C8 is false as stated, on two points, both exhibited by the record
`{elements: [], appState: [1], timestamp: 5}`. The `appState` is an
array — a sequence, not a mapping — but the source's validity test is
`!appState || typeof appState !== 'object'` and `typeof [] === 'object'`,
so the array is retained as-is instead of being replaced by an empty
mapping. And although the stored timestamp 5 is a valid number, the
re-saved record carries the current time 7, because `saveCanvasData`
stamps `Date.now()` over whatever the repaired record held. -/
theorem repairData_array_appState_cex :
    repairData (Except.ok (some { elements := .arr [], appState := .arr [.num 1],
                                  timestamp := .num 5 })) 7 =
      (true, StoreEffect.saved { elements := .arr [], appState := .arr [.num 1],
                                 timestamp := .num 7 }) ∧
    JVal.isMapping (.arr [.num 1]) = false ∧
    (JVal.arr [.num 1] ≠ JVal.obj []) ∧
    ((JVal.num 7 : JVal) ≠ .num 5) := by
  refine ⟨rfl, rfl, fun h => JVal.noConfusion h, fun h => ?_⟩
  have : (7 : Rat) = 5 := by injection h
  norm_num at this

/-- C8 (amended): `repairData` never raises and returns a success
indicator; if the load itself fails it clears the store outright; with no
stored record it does nothing; for every loaded record it replaces a
non-array `elements` with an empty array and an `appState` that is falsy
or not of object run-time type with an empty mapping — an array
`appState` passes the `typeof` test and is retained unchanged — and
re-saves the record, whose timestamp is always restamped to the current
time by the save itself, regardless of the stored value. -/
theorem repairData_amended :
    (∀ now, repairData (Except.error ()) now = (true, StoreEffect.cleared)) ∧
    (∀ now, repairData (Except.ok none) now = (true, StoreEffect.untouched)) ∧
    (∀ (now : Nat) (data : RawRecord), ∃ r : RawRecord,
       repairData (Except.ok (some data)) now = (true, StoreEffect.saved r) ∧
       r.elements.isArray = true ∧
       r.timestamp = JVal.num (now : Rat) ∧
       r.appState.truthy = true ∧ r.appState.jtypeof = "object" ∧
       (data.elements.isArray = true → r.elements = data.elements) ∧
       (data.elements.isArray = false → r.elements = JVal.arr []) ∧
       (data.appState.isMapping = true → r.appState = data.appState) ∧
       (data.appState.truthy = false ∨ data.appState.jtypeof ≠ "object" →
         r.appState = JVal.obj [])) := by
  refine ⟨fun now => rfl, fun now => rfl, ?_⟩
  intro now data
  have hobj : ∀ fields : List (String × JVal),
      ((JVal.obj fields).truthy && ((JVal.obj fields).jtypeof == "object")) = true := by
    intro fields; rfl
  by_cases he : data.elements.isArray = true <;>
    by_cases ha : (data.appState.truthy && (data.appState.jtypeof == "object")) = true
  · rw [Bool.and_eq_true, beq_iff_eq] at ha
    refine ⟨⟨data.elements, data.appState, .num (now : Rat)⟩, ?_, he, rfl,
            ha.1, ha.2, fun _ => rfl, ?_, fun _ => rfl, ?_⟩
    · simp [repairData, saveCanvasDataRaw, he, ha.1, ha.2]
    · intro hf; simp [hf] at he
    · rintro (hf | ht)
      · rw [ha.1] at hf; cases hf
      · exact absurd ha.2 ht
  · refine ⟨⟨data.elements, .obj [], .num (now : Rat)⟩, ?_, he, rfl,
            rfl, rfl, fun _ => rfl, ?_, ?_, fun _ => rfl⟩
    · simp [repairData, saveCanvasDataRaw, he, ha]
    · intro hf; simp [hf] at he
    · intro hm
      exfalso
      cases hv : data.appState <;> simp [JVal.isMapping, hv] at hm
      exact ha (hv ▸ hobj _)
  · rw [Bool.and_eq_true, beq_iff_eq] at ha
    refine ⟨⟨.arr [], data.appState, .num (now : Rat)⟩, ?_, rfl, rfl,
            ha.1, ha.2, ?_, fun _ => rfl, fun _ => rfl, ?_⟩
    · simp [repairData, saveCanvasDataRaw, he, ha.1, ha.2]
    · intro ht; exact absurd ht he
    · rintro (hf | ht)
      · rw [ha.1] at hf; cases hf
      · exact absurd ha.2 ht
  · refine ⟨⟨.arr [], .obj [], .num (now : Rat)⟩, ?_, rfl, rfl,
            rfl, rfl, ?_, fun _ => rfl, ?_, fun _ => rfl⟩
    · simp [repairData, saveCanvasDataRaw, he, ha]
    · intro ht; exact absurd ht he
    · intro hm
      exfalso
      cases hv : data.appState <;> simp [JVal.isMapping, hv] at hm
      exact ha (hv ▸ hobj _)

/-- Witness for C8: a record holding a string for `elements` and a number
for `appState` is repaired to an empty array and empty mapping, re-saved
with the current time 9. -/
theorem repairData_amended_w :
    repairData (Except.ok (some { elements := .str "x", appState := .num 3,
                                  timestamp := .undef })) 9 =
      (true, StoreEffect.saved { elements := .arr [], appState := .obj [],
                                 timestamp := .num 9 }) := by
  obtain ⟨r, hr, _, hts, _, _, _, hel, _, hap⟩ :=
    repairData_amended.2.2 9 { elements := .str "x", appState := .num 3, timestamp := .undef }
  have hrr : r = { elements := .arr [], appState := .obj [], timestamp := .num 9 } := by
    cases r
    simp only at hts hel hap
    rw [hts, hel rfl, hap (Or.inr (by decide))]
    norm_num
  rw [hrr] at hr
  exact hr

/-! ## C9 — the collaborator set is always a proper Map -/

/-- Whether an action applies a document whose collaborator set is not a
proper `Map` (no action in any trace may be of this shape). -/
def badApply : Act → Bool
  | .applyScene d => !d.appState.collaborators.isMap
  | _ => false

/-- C9 (confirmed): `ensureCollaboratorsMap` always yields a proper `Map`
for the collaborator set — an existing `Map` instance is kept, and an
array, plain object or absent value is replaced by an empty `Map` — and
every programmatic apply, whether from the remote-update handler or from
the startup restore, goes through it, so no document reaches the live
surface with an unchecked collaborator representation. -/
theorem collaborators_always_map_confirmed :
    (∀ a : Option AppState, (ensureCollaboratorsMap a).collaborators.isMap = true) ∧
    (∀ (now : Nat) (rndSeed rndNonce : Rat) (p : DrawPayload),
       (handleCanvasUpdate now rndSeed rndNonce p).any badApply = false) ∧
    (∀ (remote : Option RemoteCanvas) (localData : Option CanvasData),
       (initializeStorage remote localData).any badApply = false) := by
  have hmap : ∀ a : Option AppState, (ensureCollaboratorsMap a).collaborators.isMap = true := by
    intro a
    cases a with
    | none => rfl
    | some a0 =>
      cases hc : a0.collaborators <;> simp [ensureCollaboratorsMap, hc, CollabVal.isMap]
  refine ⟨hmap, ?_, ?_⟩
  · intro now rndSeed rndNonce p
    by_cases h : (p.elements.getD []).length > 0 <;>
      simp [handleCanvasUpdate, h, badApply, hmap]
  · intro remote localData
    cases remote with
    | none =>
      cases localData <;> simp [initializeStorage, badApply, hmap]
    | some c =>
      by_cases h : c.elements.isSome <;>
        cases localData <;> simp [initializeStorage, h, badApply, hmap]

/-! ## C2 — echo suppression -/

/-- C2 is false as stated: the startup restore performs a programmatic
apply without setting the suppression flag (there is an apply executed
with the flag down), and a surface-originated change notification
delivered right after it is therefore not dropped — the unsuppressed
`onChange` schedules a debounced persisted write. -/
theorem echo_suppression_startup_gap_cex :
    ((flagsIn false (initializeStorage
        (some { elements := some [{ type := "rectangle" }], updated_at := 100 }) none)).any
      (fun pr => pr.2.isApply && !pr.1) = true) ∧
    ((onChange false {} (some [{ type := "rectangle" }]) none none).pending ≠ none) := by
  decide

/-- C2 (amended): every programmatic apply performed by the remote-update
handler (`handleCanvasUpdate`) sets the suppression flag before the apply
and schedules its reset after the fixed 100 ms delay, and a change
notification received while the flag is set is dropped before reaching
the debounced-save logic (the debouncer refs are left untouched, so no
write is scheduled); consequently a remote-update apply followed within
the suppression window by a surface-originated change notification never
triggers a persisted write. The startup-restore apply, however, runs
without setting the flag. -/
theorem echo_suppression_amended :
    (∀ (now : Nat) (rndSeed rndNonce : Rat) (p : DrawPayload),
       (flagsIn false (handleCanvasUpdate now rndSeed rndNonce p)).all
         (fun pr => !pr.2.isApply || pr.1) = true) ∧
    (∀ (now : Nat) (rndSeed rndNonce : Rat) (p : DrawPayload),
       eventuallyCleared (handleCanvasUpdate now rndSeed rndNonce p) = true) ∧
    (∀ (st : DebounceState) (els : Option (List RawElement))
       (app : Option AppState) (files : Option Files),
       onChange true st els app files = st) ∧
    (∀ (remote : Option RemoteCanvas) (localData : Option CanvasData),
       (flagsIn false (initializeStorage remote localData)).all
         (fun pr => !pr.2.isApply || !pr.1) = true) := by
  refine ⟨?_, ?_, fun st els app files => rfl, ?_⟩
  · intro now rndSeed rndNonce p
    by_cases h : (p.elements.getD []).length > 0 <;>
      simp [handleCanvasUpdate, h, flagsIn, Act.isApply]
  · intro now rndSeed rndNonce p
    by_cases h : (p.elements.getD []).length > 0 <;>
      simp [handleCanvasUpdate, h, eventuallyCleared]
  · intro remote localData
    cases remote with
    | none =>
      cases localData <;> simp [initializeStorage, flagsIn, Act.isApply]
    | some c =>
      by_cases h : c.elements.isSome <;>
        cases localData <;> simp [initializeStorage, h, flagsIn, Act.isApply]

/-! ## C3 — content-hash dedup and debounce coalescing -/

/-- A notification whose serialization differs from the last scheduled
hash records the new hash and replaces the pending save with its own
content (the previous timer is cancelled). -/
theorem onChange_schedules (st : DebounceState) (n : Notif)
    (h : st.lastSaveData ≠ some (notifSnap n)) :
    onChange false st (some n.elements) n.appState n.files =
      { lastSaveData := some (notifSnap n),
        pending := some (n.elements, ensureCollaboratorsMap n.appState) } := by
  simp only [onChange, Bool.false_eq_true, if_false, notifSnap] at h ⊢
  rw [if_neg h]

/-- After a burst of content-changing notifications inside one debounce
window, the debouncer holds exactly the last notification's content as
the single pending save. -/
theorem runBurst_chain :
    ∀ (ns : List Notif) (st : DebounceState) (h : ns ≠ []),
      chainDistinct st.lastSaveData ns = true →
      runBurst st ns =
        { lastSaveData := some (notifSnap (ns.getLast h)),
          pending := some ((ns.getLast h).elements,
                           ensureCollaboratorsMap (ns.getLast h).appState) }
  | [], _, h, _ => absurd rfl h
  | [n], st, _, hc => by
    rw [chainDistinct, chainDistinct, Bool.and_true, bne_iff_ne] at hc
    rw [runBurst, runBurst, List.getLast_singleton]
    exact onChange_schedules st n hc
  | n :: m :: rest, st, _, hc => by
    rw [chainDistinct, Bool.and_eq_true, bne_iff_ne] at hc
    obtain ⟨h1, h2⟩ := hc
    rw [runBurst, onChange_schedules st n h1,
        runBurst_chain (m :: rest) _ (List.cons_ne_nil m rest) h2,
        List.getLast_cons (List.cons_ne_nil m rest)]

/-- C3 (confirmed): an unsuppressed change notification whose canonical
serialization of elements, normalized app state and files equals the last
one scheduled is an idempotent no-op — the debouncer refs are untouched,
so no durable write results — while a nonempty burst of content-changing
notifications inside the 300 ms window leaves exactly the last
notification's content pending (each arrival cancels the previous timer),
and the single timer firing performs exactly one durable write whose
content is that last edit. -/
theorem debounce_coalescing_confirmed :
    (∀ (st : DebounceState) (els : List RawElement) (app : Option AppState)
       (files : Option Files),
       st.lastSaveData = some (notifSnap ⟨els, app, files⟩) →
       onChange false st (some els) app files = st) ∧
    (∀ (st : DebounceState) (ns : List Notif) (h : ns ≠ []),
       chainDistinct st.lastSaveData ns = true →
       ∀ (now : Nat) (store : Store),
         fireSave now store (runBurst st ns) =
           (some (saveCanvasData (ns.getLast h).elements
                    (ensureCollaboratorsMap (ns.getLast h).appState) now),
            { lastSaveData := some (notifSnap (ns.getLast h)), pending := none })) := by
  constructor
  · intro st els app files h
    simp only [notifSnap] at h
    simp only [onChange, Bool.false_eq_true, if_false]
    rw [if_pos h]
  · intro st ns h hc now store
    rw [runBurst_chain ns st h hc]
    rfl

/-- Witness for C3: two distinct edits inside one window end with a
single pending save holding the second edit, and the timer firing writes
exactly that content. -/
theorem debounce_coalescing_confirmed_w :
    fireSave 50 none (runBurst {}
        [{ elements := [{ type := "rectangle", x := 1 }] },
         { elements := [{ type := "rectangle", x := 2 }] }]) =
      (some { elements := [{ type := "rectangle", x := 2 }],
              appState := { collaborators := .map [] }, timestamp := 50 },
       { lastSaveData := some (notifSnap { elements := [{ type := "rectangle", x := 2 }] }),
         pending := none }) := by
  have h := debounce_coalescing_confirmed.2 {}
    [{ elements := [{ type := "rectangle", x := 1 }] },
     { elements := [{ type := "rectangle", x := 2 }] }]
    (by decide) (by decide) 50 none
  exact h

/-! ## C4 — startup reconciliation -/

/-- C4 is false as stated: on a successful remote read the startup path
applies the raw remote elements with no suppression flag set around the
apply (an apply executes with the flag down) and with no element
normalization — the applied rectangle still carries opacity 0, which the
normalizer would have rewritten to 100. -/
theorem startup_reconcile_cex :
    (initializeStorage
        (some { elements := some [{ type := "rectangle", opacity := some 0 }],
                updated_at := 100 }) none =
      [Act.saveLocal [{ type := "rectangle", opacity := some 0 }] {},
       Act.applyScene { elements := [{ type := "rectangle", opacity := some 0 }],
                        appState := { collaborators := .map [] }, files := [] }]) ∧
    ((flagsIn false (initializeStorage
        (some { elements := some [{ type := "rectangle", opacity := some 0 }],
                updated_at := 100 }) none)).any
      (fun pr => pr.2.isApply && !pr.1) = true) ∧
    ((processElement 5 1 2 0 { type := "rectangle", opacity := some 0 }).opacity
        = some 100) ∧
    (some (100 : Rat) ≠ some (0 : Rat)) := by decide

/-- C4 (amended): on startup the reconciler attempts a remote read; on
success the remote document is authoritative — it is applied to the live
surface with only its collaborator set rebuilt as a proper mapping (the
elements are applied as received, without element normalization, and no
echo-suppression flag is set around this apply) and it is persisted
locally first; on remote failure the reconciler falls back to the local
cache's record if present and applies that; if neither remote nor local
has data, no apply happens and the live surface is left empty. -/
theorem startup_reconcile_amended :
    (∀ (c : RemoteCanvas) (els : List RawElement) (localData : Option CanvasData)
       (now : Nat) (store : Store),
       c.elements = some els →
       (Act.applyScene { elements := els, appState := ensureCollaboratorsMap c.appState,
                         files := c.files.getD [] } ∈ initializeStorage (some c) localData) ∧
       storeAfter now store (initializeStorage (some c) localData) =
         some (saveCanvasData els (c.appState.getD {}) now) ∧
       (flagsIn false (initializeStorage (some c) localData)).all
         (fun pr => !pr.2.isApply || !pr.1) = true) ∧
    (∀ (remote : Option RemoteCanvas) (d : CanvasData),
       (remote = none ∨ ∃ c, remote = some c ∧ c.elements = none) →
       initializeStorage remote (some d) =
         [Act.applyScene { elements := d.elements,
                           appState := ensureCollaboratorsMap (some d.appState),
                           files := [] }]) ∧
    (∀ remote : Option RemoteCanvas,
       (remote = none ∨ ∃ c, remote = some c ∧ c.elements = none) →
       initializeStorage remote none = []) := by
  refine ⟨?_, ?_, ?_⟩
  · intro c els localData now store hce
    have hsome : c.elements.isSome = true := by rw [hce]; rfl
    have hget : c.elements.getD [] = els := by rw [hce]; rfl
    refine ⟨?_, ?_, ?_⟩
    · simp [initializeStorage, hsome, hget]
    · simp [initializeStorage, hsome, hget, storeAfter]
    · simp [initializeStorage, hsome, flagsIn, Act.isApply]
  · intro remote d h
    rcases h with rfl | ⟨c, rfl, hce⟩
    · rfl
    · simp [initializeStorage, hce]
  · intro remote h
    rcases h with rfl | ⟨c, rfl, hce⟩
    · rfl
    · simp [initializeStorage, hce]

/-- Witness for C4: a concrete successful remote read is applied and
persisted, and a concrete failed one falls back to the local record. -/
theorem startup_reconcile_amended_w :
    (Act.applyScene { elements := [{ type := "rectangle" }],
                      appState := { collaborators := .map [] }, files := [] } ∈
       initializeStorage (some { elements := some [{ type := "rectangle" }],
                                 updated_at := 100 }) none) ∧
    storeAfter 42 none (initializeStorage
        (some { elements := some [{ type := "rectangle" }], updated_at := 100 }) none) =
      some (saveCanvasData [{ type := "rectangle" }] {} 42) ∧
    initializeStorage none (some { elements := [{ type := "ellipse" }],
                                   appState := {}, timestamp := 3 }) =
      [Act.applyScene { elements := [{ type := "ellipse" }],
                        appState := ensureCollaboratorsMap (some {}), files := [] }] :=
  ⟨((startup_reconcile_amended.1 { elements := some [{ type := "rectangle" }], updated_at := 100 }
      [{ type := "rectangle" }] none 42 none rfl).1),
   ((startup_reconcile_amended.1 { elements := some [{ type := "rectangle" }], updated_at := 100 }
      [{ type := "rectangle" }] none 42 none rfl).2.1),
   (startup_reconcile_amended.2.1 none
      { elements := [{ type := "ellipse" }], appState := {}, timestamp := 3 } (Or.inl rfl))⟩

/-! ## C7 — end-to-end startup scenario -/

/-- C7 is false as stated: with an empty local cache and the remote
reporting one rectangle at `updated_at = 100`, startup run at local clock
999 does apply the rectangle, but the persisted record's timestamp is the
save-time 999 (`saveCanvasData` stamps `Date.now()`), not the remote
token 100. -/
theorem startup_rectangle_timestamp_cex :
    storeAfter 999 none (initializeStorage
        (some { elements := some [{ type := "rectangle" }], updated_at := 100 }) none) =
      some { elements := [{ type := "rectangle" }], appState := {}, timestamp := 999 } ∧
    (999 : Nat) ≠ 100 := by decide

/-- C7 (amended): starting from an empty local cache, when the remote
service reports one rectangle at `updated_at = 100`, after startup
reconciliation the live surface holds exactly that rectangle and the
local cache holds a singleton record with that rectangle, timestamped
with the local save time (`Date.now()`), not with the remote token. -/
theorem startup_rectangle_amended :
    ∀ (now : Nat) (rect : RawElement),
      (Act.applyScene { elements := [rect], appState := { collaborators := .map [] },
                        files := [] } ∈
         initializeStorage (some { elements := some [rect], updated_at := 100 }) none) ∧
      storeAfter now none (initializeStorage
          (some { elements := some [rect], updated_at := 100 }) none) =
        some { elements := [rect], appState := {}, timestamp := now } := by
  intro now rect
  constructor
  · simp [initializeStorage, ensureCollaboratorsMap]
  · simp [initializeStorage, storeAfter, saveCanvasData]

/-! ## C1 — remote observations vs `shouldUpdate` -/

/-- C1 is false as stated: with the local cache holding a record
timestamped 200 and the channel having seen no token yet, a poll
reporting `updated_at = 100` fails `shouldUpdate` (100 is not greater
than 200), yet the handler applies the observed document to the live
surface and persists it, overwriting the local record — the poll path
never consults `shouldUpdateData`. -/
theorem pollStep_ignores_shouldUpdate_cex :
    shouldUpdateData (some { elements := [], appState := {}, timestamp := 200 }) 100 = false ∧
    ((pollStep 500 1 2 {} (some { elements := [], appState := {}, timestamp := 200 })
        (some { elements := some [{ type := "rectangle" }], app_state := some {},
                updated_at := 100 })).2.2.any Act.isApply = true) ∧
    ((pollStep 500 1 2 {} (some { elements := [], appState := {}, timestamp := 200 })
        (some { elements := some [{ type := "rectangle" }], app_state := some {},
                updated_at := 100 })).2.1 ≠
      some { elements := [], appState := {}, timestamp := 200 }) := by decide

/-- C1 (amended): on a remote-poll observation the handler applies the
observed document to the live surface and persists it whenever the
reported `updated_at` token is present and differs from the last token
this channel has seen — the local cache's timestamp and `shouldUpdate`
are never consulted, so an observation older than the cached record is
adopted all the same (the handler's outcome is identical for every local
store state); an observation whose token equals the last seen one, or a
failed read, is discarded and the local document retained unchanged. -/
theorem pollStep_apply_persist_amended :
    (∀ (now : Nat) (rndSeed rndNonce : Rat) (st : PollState) (store : Store),
       pollStep now rndSeed rndNonce st store none = (st, store, [])) ∧
    (∀ (now : Nat) (rndSeed rndNonce : Rat) (st : PollState) (store : Store)
       (c : RemoteCanvas),
       (c.updated_at = 0 ∨ c.updated_at = st.lastUpdateTime) →
       pollStep now rndSeed rndNonce st store (some c) = (st, store, [])) ∧
    (∀ (now : Nat) (rndSeed rndNonce : Rat) (st : PollState)
       (store store2 : Store) (resp : Option RemoteCanvas),
       (pollStep now rndSeed rndNonce st store resp).2.2 =
         (pollStep now rndSeed rndNonce st store2 resp).2.2) ∧
    (∀ (now : Nat) (rndSeed rndNonce : Rat) (st : PollState) (store : Store)
       (c : RemoteCanvas) (els : List RawElement),
       c.updated_at ≠ 0 → c.updated_at ≠ st.lastUpdateTime →
       c.elements = some els → els ≠ [] →
       (Act.applyScene
           { elements := els.enum.map
               (fun pr => processElement now rndSeed rndNonce pr.1 pr.2),
             appState := ensureCollaboratorsMap c.app_state,
             files := c.files.getD [] } ∈
         (pollStep now rndSeed rndNonce st store (some c)).2.2) ∧
       (pollStep now rndSeed rndNonce st store (some c)).2.1 =
         some (saveCanvasData
           (els.enum.map (fun pr => processElement now rndSeed rndNonce pr.1 pr.2))
           (c.app_state.getD {}) now)) := by
  refine ⟨fun now rndSeed rndNonce st store => rfl, ?_, ?_, ?_⟩
  · intro now rndSeed rndNonce st store c h
    have hguard : ((c.updated_at != 0) && (c.updated_at != st.lastUpdateTime)) = false := by
      rcases h with h | h <;> simp [h]
    simp [pollStep, pollTick, hguard]
  · intro now rndSeed rndNonce st store store2 resp
    cases resp with
    | none => rfl
    | some c =>
      by_cases hguard : ((c.updated_at != 0) && (c.updated_at != st.lastUpdateTime)) = true <;>
        simp [pollStep, pollTick, hguard]
  · intro now rndSeed rndNonce st store c els h1 h2 hce hne
    have hguard : ((c.updated_at != 0) && (c.updated_at != st.lastUpdateTime)) = true := by
      simp [h1, h2]
    have hlen : (els.length > 0) := List.length_pos.mpr hne
    have hget : (some els).getD ([] : List RawElement) = els := rfl
    constructor
    · simp [pollStep, pollTick, hguard, handleCanvasUpdate, hce, hget, hlen]
    · simp [pollStep, pollTick, hguard, handleCanvasUpdate, hce, hget, hlen,
            storeAfter, saveCanvasData]

/-- Witness for C1: a concrete stale observation (token 100 against a
cache record timestamped 200) is nonetheless applied and persisted. -/
theorem pollStep_apply_persist_amended_w :
    (Act.applyScene
        { elements := [processElement 500 1 2 0 { type := "rectangle" }],
          appState := { collaborators := .map [] }, files := [] } ∈
      (pollStep 500 1 2 {} (some { elements := [], appState := {}, timestamp := 200 })
        (some { elements := some [{ type := "rectangle" }], app_state := some {},
                updated_at := 100 })).2.2) ∧
    (pollStep 500 1 2 {} (some { elements := [], appState := {}, timestamp := 200 })
        (some { elements := some [{ type := "rectangle" }], app_state := some {},
                updated_at := 100 })).2.1 =
      some (saveCanvasData [processElement 500 1 2 0 { type := "rectangle" }] {} 500) := by
  have h := pollStep_apply_persist_amended.2.2.2 500 1 2 {}
    (some { elements := [], appState := {}, timestamp := 200 })
    { elements := some [{ type := "rectangle" }], app_state := some {}, updated_at := 100 }
    [{ type := "rectangle" }] (by decide) (by decide) rfl (by decide)
  exact h

end Extauri
